import Mathlib

/-!
Shallow embedding of `src/scanner_diff.py` (class `VulnerabilityScanner`):
a tool that scans container images with two vulnerability scanners (Trivy
and Grype), normalizes each scanner's JSON output into a set of
`(vulnerability_id, package_name)` finding keys plus a severity histogram,
diffs the two key sets per image, and aggregates per-image comparison
records into a cross-image summary report.

Modelling conventions:
- JSON documents (the Python values produced by `json.loads`) are values
  of an inductive `Json` type.
- Python runtime exceptions (`AttributeError` on `.get`/`.upper()` of a
  non-dict/non-str value, `TypeError` on iterating a non-iterable,
  `FileNotFoundError` when `subprocess.run` cannot find the binary,
  `json.JSONDecodeError`) are modelled with `Except PyErr`.
- Python truthiness (`if not trivy_data`, `if vuln_id and pkg_name`) is
  modelled by `pyFalsy` / `pyTruthy` on `Json` values.
- `set()` becomes `Finset`, `collections.Counter` becomes
  `Multiset String` (the multiset of counted labels, i.e. the
  label -> count mapping with `Multiset.count` giving each count), and
  `str.upper()` becomes `asciiUpper` (character-wise ASCII upper-casing;
  the severity labels involved are ASCII).
- The external subprocess invocation is modelled by a `ProcResult` oracle
  argument (one outcome per image): either the process completed with
  some stdout text and exit code, or the invocation itself raised
  (binary missing). `json.loads` is modelled by an abstract parse oracle
  `String → Option Json` where `none` stands for `json.JSONDecodeError`.
- Python's `sorted` over finding-key tuples is modelled on sets whose
  elements are pairs of strings (the only element type the program's own
  annotations, `Set[Tuple[str, str]]`, allow); a set containing a
  non-string component is conservatively mapped to a `TypeError`,
  mirroring CPython's unorderable-types error for mixed-type sets.
-/

/-- A JSON value, as produced by Python's `json.loads`. -/
inductive Json where
  | null
  | bool (b : Bool)
  | num (n : Int)
  | str (s : String)
  | arr (xs : List Json)
  | obj (fields : List (String × Json))
  deriving Repr

mutual

/-- Decidable equality on `Json` (the derive handler does not support the
nested `List` occurrences, so it is spelled out). -/
def Json.eqDec : (a b : Json) → Decidable (a = b)
  | .null, .null => isTrue rfl
  | .bool a, .bool b =>
    if h : a = b then isTrue (h ▸ rfl) else isFalse (fun he => h (Json.bool.inj he))
  | .num a, .num b =>
    if h : a = b then isTrue (h ▸ rfl) else isFalse (fun he => h (Json.num.inj he))
  | .str a, .str b =>
    if h : a = b then isTrue (h ▸ rfl) else isFalse (fun he => h (Json.str.inj he))
  | .arr xs, .arr ys =>
    match Json.eqDecList xs ys with
    | isTrue h => isTrue (h ▸ rfl)
    | isFalse h => isFalse (fun he => h (Json.arr.inj he))
  | .obj fs, .obj gs =>
    match Json.eqDecFields fs gs with
    | isTrue h => isTrue (h ▸ rfl)
    | isFalse h => isFalse (fun he => h (Json.obj.inj he))
  | .null, .bool _ => isFalse nofun
  | .null, .num _ => isFalse nofun
  | .null, .str _ => isFalse nofun
  | .null, .arr _ => isFalse nofun
  | .null, .obj _ => isFalse nofun
  | .bool _, .null => isFalse nofun
  | .bool _, .num _ => isFalse nofun
  | .bool _, .str _ => isFalse nofun
  | .bool _, .arr _ => isFalse nofun
  | .bool _, .obj _ => isFalse nofun
  | .num _, .null => isFalse nofun
  | .num _, .bool _ => isFalse nofun
  | .num _, .str _ => isFalse nofun
  | .num _, .arr _ => isFalse nofun
  | .num _, .obj _ => isFalse nofun
  | .str _, .null => isFalse nofun
  | .str _, .bool _ => isFalse nofun
  | .str _, .num _ => isFalse nofun
  | .str _, .arr _ => isFalse nofun
  | .str _, .obj _ => isFalse nofun
  | .arr _, .null => isFalse nofun
  | .arr _, .bool _ => isFalse nofun
  | .arr _, .num _ => isFalse nofun
  | .arr _, .str _ => isFalse nofun
  | .arr _, .obj _ => isFalse nofun
  | .obj _, .null => isFalse nofun
  | .obj _, .bool _ => isFalse nofun
  | .obj _, .num _ => isFalse nofun
  | .obj _, .str _ => isFalse nofun
  | .obj _, .arr _ => isFalse nofun

/-- Decidable equality on lists of `Json`. -/
def Json.eqDecList : (a b : List Json) → Decidable (a = b)
  | [], [] => isTrue rfl
  | [], _ :: _ => isFalse nofun
  | _ :: _, [] => isFalse nofun
  | x :: xs, y :: ys =>
    match Json.eqDec x y, Json.eqDecList xs ys with
    | isTrue h1, isTrue h2 => isTrue (h1 ▸ h2 ▸ rfl)
    | isFalse h1, _ => isFalse (fun he => h1 (List.cons.inj he).1)
    | _, isFalse h2 => isFalse (fun he => h2 (List.cons.inj he).2)

/-- Decidable equality on JSON object field lists. -/
def Json.eqDecFields : (a b : List (String × Json)) → Decidable (a = b)
  | [], [] => isTrue rfl
  | [], _ :: _ => isFalse nofun
  | _ :: _, [] => isFalse nofun
  | (k1, v1) :: xs, (k2, v2) :: ys =>
    match String.decEq k1 k2, Json.eqDec v1 v2, Json.eqDecFields xs ys with
    | isTrue h1, isTrue h2, isTrue h3 => isTrue (h1 ▸ h2 ▸ h3 ▸ rfl)
    | isFalse h1, _, _ => isFalse (fun he => h1 (congrArg Prod.fst (List.cons.inj he).1))
    | _, isFalse h2, _ => isFalse (fun he => h2 (congrArg Prod.snd (List.cons.inj he).1))
    | _, _, isFalse h3 => isFalse (fun he => h3 (List.cons.inj he).2)

end

instance : DecidableEq Json := Json.eqDec

/-- The Python exceptions the scanner code can raise or catch. -/
inductive PyErr where
  | attributeError
  | typeError
  | fileNotFoundError
  deriving DecidableEq, Repr

instance {ε α : Type} [DecidableEq ε] [DecidableEq α] : DecidableEq (Except ε α)
  | .ok a, .ok b =>
    if h : a = b then isTrue (h ▸ rfl) else isFalse (fun he => h (Except.ok.inj he))
  | .error a, .error b =>
    if h : a = b then isTrue (h ▸ rfl) else isFalse (fun he => h (Except.error.inj he))
  | .ok _, .error _ => isFalse nofun
  | .error _, .ok _ => isFalse nofun

/-- Python falsiness of a JSON value (`not x` holds exactly on these). -/
def pyFalsy : Json → Bool
  | .null => true
  | .bool b => !b
  | .num n => n == 0
  | .str s => s == ""
  | .arr xs => xs.isEmpty
  | .obj fs => fs.isEmpty

/-- Python truthiness (`if x:`). -/
def pyTruthy (j : Json) : Bool := !pyFalsy j

/-- Python `x.get(key, default)`: only dicts have `.get`; any other value
raises `AttributeError`. -/
def dictGet (j : Json) (key : String) (dflt : Json) : Except PyErr Json :=
  match j with
  | .obj fs => .ok ((fs.lookup key).getD dflt)
  | _ => .error .attributeError

/-- Python `for x in j`: lists iterate their elements, strings their
characters, dicts their keys; other values raise `TypeError`. -/
def pyIter : Json → Except PyErr (List Json)
  | .arr xs => .ok xs
  | .str s => .ok (s.toList.map (fun c => .str (String.mk [c])))
  | .obj fs => .ok (fs.map (fun p => .str p.1))
  | _ => .error .typeError

/-- ASCII upper-casing of a string, character by character (the behavior
of Python's `str.upper()` on the ASCII severity labels involved). -/
def asciiUpper (s : String) : String := String.mk (s.data.map Char.toUpper)

/-- Python `x.upper()`: only strings have `.upper`; any other value raises
`AttributeError`. -/
def pyUpper : Json → Except PyErr String
  | .str s => .ok (asciiUpper s)
  | _ => .error .attributeError

/-- Outcome of one `subprocess.run` call: either the process completed
(with the given stdout text and exit code — `subprocess.run` without
`check=True` does not raise on a non-zero exit code), or the invocation
itself raised `FileNotFoundError` (scanner binary missing). -/
inductive ProcResult where
  | completed (stdout : String) (exitCode : Int)
  | invocationError
  deriving DecidableEq, Repr

/-- `VulnerabilityScanner.scan_with_trivy` (src/scanner_diff.py:18-34),
given the outcome of the `trivy image --format json --quiet <image>`
subprocess. `parse` models `json.loads` (`none` = `json.JSONDecodeError`).
The `try` block catches only `json.JSONDecodeError` (returning `{}`); a
`FileNotFoundError` from `subprocess.run` propagates. Empty stdout also
returns `{}`; the exit code is ignored. -/
def scan_with_trivy (parse : String → Option Json) : ProcResult → Except PyErr Json
  | .invocationError => .error .fileNotFoundError
  | .completed stdout _ =>
    if stdout = "" then .ok (.obj [])
    else
      match parse stdout with
      | some j => .ok j
      | none => .ok (.obj [])

/-- `VulnerabilityScanner.scan_with_grype` (src/scanner_diff.py:36-52),
given the outcome of the `grype <image> -o json -q` subprocess; same
control flow as `scan_with_trivy`. -/
def scan_with_grype (parse : String → Option Json) : ProcResult → Except PyErr Json
  | .invocationError => .error .fileNotFoundError
  | .completed stdout _ =>
    if stdout = "" then .ok (.obj [])
    else
      match parse stdout with
      | some j => .ok j
      | none => .ok (.obj [])

/-- One raw finding as read inside the extractor loops: the values of the
id and package-name fields (arbitrary JSON values, defaulting to `""`
when absent) and the upper-cased severity label. -/
structure RawFinding where
  vuln_id : Json
  pkg_name : Json
  severity : String
  deriving DecidableEq, Repr

/-- Body of the inner Trivy loop (src/scanner_diff.py:66-68): read
`VulnerabilityID`, `PkgName`, and `Severity` (default `"UNKNOWN"`) from
one vulnerability entry and upper-case the severity. Raises
`AttributeError` when `vuln` is not a dict or its severity value is not a
string. -/
def trivyFinding (vuln : Json) : Except PyErr RawFinding := do
  let vuln_id ← dictGet vuln "VulnerabilityID" (.str "")
  let pkg_name ← dictGet vuln "PkgName" (.str "")
  let sevRaw ← dictGet vuln "Severity" (.str "UNKNOWN")
  let severity ← pyUpper sevRaw
  .ok ⟨vuln_id, pkg_name, severity⟩

/-- The inner Trivy loop over one result entry (src/scanner_diff.py:65):
iterate `result.get("Vulnerabilities", [])` and read each finding. -/
def trivyResultFindings (result : Json) : Except PyErr (List RawFinding) := do
  let vulns ← dictGet result "Vulnerabilities" (.arr [])
  let vulnList ← pyIter vulns
  vulnList.mapM trivyFinding

/-- The nested loops of `extract_trivy_vulns` (src/scanner_diff.py:64-68):
iterate `trivy_data.get("Results", [])`, within each result iterate its
vulnerabilities, and read each finding; the findings are listed in loop
order, and the first Python exception aborts the whole extraction. -/
def trivyRawFindings (trivy_data : Json) : Except PyErr (List RawFinding) := do
  let results ← dictGet trivy_data "Results" (.arr [])
  let resultList ← pyIter results
  let nested ← resultList.mapM trivyResultFindings
  .ok nested.flatten

/-- Body of the Grype loop (src/scanner_diff.py:87-89): read
`match.get("vulnerability", {}).get("id", "")`,
`match.get("artifact", {}).get("name", "")`, and
`match.get("vulnerability", {}).get("severity", "Unknown").upper()`. -/
def grypeFinding (mtch : Json) : Except PyErr RawFinding := do
  let vulnObj ← dictGet mtch "vulnerability" (.obj [])
  let vuln_id ← dictGet vulnObj "id" (.str "")
  let artObj ← dictGet mtch "artifact" (.obj [])
  let pkg_name ← dictGet artObj "name" (.str "")
  let sevRaw ← dictGet vulnObj "severity" (.str "Unknown")
  let severity ← pyUpper sevRaw
  .ok ⟨vuln_id, pkg_name, severity⟩

/-- The loop of `extract_grype_vulns` (src/scanner_diff.py:86-89):
iterate `grype_data.get("matches", [])` and read each match. -/
def grypeRawFindings (grype_data : Json) : Except PyErr (List RawFinding) := do
  let ms ← dictGet grype_data "matches" (.arr [])
  let matchList ← pyIter ms
  matchList.mapM grypeFinding

/-- A finding key: the pair of JSON values stored by
`vulns.add((vuln_id, pkg_name))`. Well-formed scanner output makes both
components strings. -/
abbrev JKey : Type := Json × Json

/-- `NormalizedScanResult` (spec §3): the pair returned by each extractor —
the set of finding keys (`vulns`) and the severity histogram
(`severity_counts`, a `Counter`, modelled as the multiset of counted
labels). -/
structure NormalizedScanResult where
  finding_keys : Finset JKey
  severity : Multiset String

instance : DecidableEq NormalizedScanResult := fun x y =>
  decidable_of_iff (x.finding_keys = y.finding_keys ∧ x.severity = y.severity)
    (by cases x; cases y; simp)

/-- The guard `if vuln_id and pkg_name:` (src/scanner_diff.py:70, 91):
both field values are Python-truthy. -/
def qualifies (f : RawFinding) : Bool := pyTruthy f.vuln_id && pyTruthy f.pkg_name

/-- One accumulation step (src/scanner_diff.py:70-72, 91-93): a qualifying
finding inserts its key into the set and bumps its severity count; a
non-qualifying finding is dropped. -/
def accumStep (r : NormalizedScanResult) (f : RawFinding) : NormalizedScanResult :=
  if qualifies f then
    { finding_keys := insert (f.vuln_id, f.pkg_name) r.finding_keys
      severity := f.severity ::ₘ r.severity }
  else r

/-- The accumulation both extractors perform over their raw findings,
starting from the empty set and empty counter. -/
def accumulate (fs : List RawFinding) : NormalizedScanResult :=
  fs.foldl accumStep ⟨∅, 0⟩

/-- The keys contributed by a raw-finding list: the `(vuln_id, pkg_name)`
pairs of its qualifying findings, as a set. -/
def keysOf (fs : List RawFinding) : Finset JKey :=
  ((fs.filter qualifies).map (fun f => (f.vuln_id, f.pkg_name))).toFinset

/-- The severity labels contributed by a raw-finding list: one histogram
increment per qualifying finding. -/
def sevsOf (fs : List RawFinding) : Multiset String :=
  ↑((fs.filter qualifies).map (fun f => f.severity))

/-- `VulnerabilityScanner.extract_trivy_vulns` (src/scanner_diff.py:54-74):
a falsy input returns the empty result immediately; otherwise the nested
loops run, accumulating keys and severity counts. -/
def extract_trivy_vulns (trivy_data : Json) : Except PyErr NormalizedScanResult :=
  if pyTruthy trivy_data then (trivyRawFindings trivy_data).map accumulate
  else .ok ⟨∅, 0⟩

/-- `VulnerabilityScanner.extract_grype_vulns` (src/scanner_diff.py:76-95):
a falsy input returns the empty result immediately; otherwise the match
loop runs, accumulating keys and severity counts. -/
def extract_grype_vulns (grype_data : Json) : Except PyErr NormalizedScanResult :=
  if pyTruthy grype_data then (grypeRawFindings grype_data).map accumulate
  else .ok ⟨∅, 0⟩

/-- The string components of a finding key, when both components are
strings (the type the source annotates: `Set[Tuple[str, str]]`). -/
def keyStr? : JKey → Option (String × String)
  | (.str a, .str b) => some (a, b)
  | _ => none

/-- A string pair re-packaged as a finding key. -/
def toStrKey (p : String × String) : JKey := (.str p.1, .str p.2)

/-- Lexicographic order on string pairs: Python's `sorted` order on a
list of `(str, str)` tuples. -/
def keyLE (a b : String × String) : Prop :=
  a.1 < b.1 ∨ (a.1 = b.1 ∧ a.2 ≤ b.2)

instance : DecidableRel keyLE := fun a b => by unfold keyLE; infer_instance

instance : IsTrans (String × String) keyLE where
  trans := by
    intro a b c hab hbc
    simp only [keyLE] at hab hbc ⊢
    rcases hab with h1 | ⟨h1, h1'⟩ <;> rcases hbc with h2 | ⟨h2, h2'⟩
    · exact Or.inl (lt_trans h1 h2)
    · exact Or.inl (h2 ▸ h1)
    · exact Or.inl (h1 ▸ h2)
    · exact Or.inr ⟨h1.trans h2, le_trans h1' h2'⟩

instance : IsAntisymm (String × String) keyLE where
  antisymm := by
    intro a b hab hba
    simp only [keyLE] at hab hba
    rcases hab with h1 | ⟨h1, h1'⟩ <;> rcases hba with h2 | ⟨h2, h2'⟩
    · exact absurd h2 (lt_asymm h1)
    · exact absurd h1 (h2 ▸ lt_irrefl _)
    · exact absurd h2 (h1 ▸ lt_irrefl _)
    · exact Prod.ext h1 (le_antisymm h1' h2')

instance : IsTotal (String × String) keyLE where
  total := by
    intro a b
    simp only [keyLE]
    rcases lt_trichotomy a.1 b.1 with h | h | h
    · exact Or.inl (Or.inl h)
    · rcases le_total a.2 b.2 with h' | h'
      · exact Or.inl (Or.inr ⟨h, h'⟩)
      · exact Or.inr (Or.inr ⟨h.symm, h'⟩)
    · exact Or.inr (Or.inl h)

/-- The string pairs of a finding-key set whose keys are all string
pairs. -/
def strPairsOf (s : Finset JKey) : Finset (String × String) :=
  s.image (fun k => (keyStr? k).getD ("", ""))

/-- Sort a multiset of string pairs into its unique `keyLE`-sorted
listing (an insertion sort, lifted along permutation invariance). -/
def insortKeys (s : Multiset (String × String)) : List (String × String) :=
  Quot.liftOn s (fun l => List.insertionSort keyLE l)
    (fun _ _ h =>
      List.eq_of_perm_of_sorted
        ((List.perm_insertionSort keyLE _).trans
          (h.trans (List.perm_insertionSort keyLE _).symm))
        (List.sorted_insertionSort keyLE _)
        (List.sorted_insertionSort keyLE _))

/-- Python `sorted(list(s))` on a set of finding keys
(src/scanner_diff.py:120-122). On a set of `(str, str)` tuples — the only
element type the extractor annotations allow — it returns the unique
lexicographically sorted listing; a set holding a non-string component is
conservatively mapped to the `TypeError` CPython raises when `sorted`
compares values of mixed types. -/
def pySortedKeys (s : Finset JKey) : Except PyErr (List JKey) :=
  if ∀ k ∈ s, (keyStr? k).isSome then
    .ok ((insortKeys (strPairsOf s).val).map toStrKey)
  else .error .typeError

/-- `only_trivy = trivy_vulns - grype_vulns` (src/scanner_diff.py:106). -/
def onlyTrivySet (t g : Finset JKey) : Finset JKey := t \ g

/-- `only_grype = grype_vulns - trivy_vulns` (src/scanner_diff.py:107). -/
def onlyGrypeSet (t g : Finset JKey) : Finset JKey := g \ t

/-- `both = trivy_vulns & grype_vulns` (src/scanner_diff.py:108). -/
def bothSet (t g : Finset JKey) : Finset JKey := t ∩ g

/-- The per-image comparison record returned by
`VulnerabilityScanner.compare_results` (src/scanner_diff.py:110-124),
with the nested dict flattened into one structure. -/
structure ImageComparison where
  image : String
  trivy_total : Nat
  trivy_severity : Multiset String
  grype_total : Nat
  grype_severity : Multiset String
  common_count : Nat
  only_trivy_count : Nat
  only_grype_count : Nat
  only_trivy : List JKey
  only_grype : List JKey
  common : List JKey

instance : DecidableEq ImageComparison := fun x y =>
  decidable_of_iff
    (x.image = y.image ∧ x.trivy_total = y.trivy_total ∧
      x.trivy_severity = y.trivy_severity ∧ x.grype_total = y.grype_total ∧
      x.grype_severity = y.grype_severity ∧ x.common_count = y.common_count ∧
      x.only_trivy_count = y.only_trivy_count ∧
      x.only_grype_count = y.only_grype_count ∧ x.only_trivy = y.only_trivy ∧
      x.only_grype = y.only_grype ∧ x.common = y.common)
    (by cases x; cases y; simp)

/-- `VulnerabilityScanner.compare_results` (src/scanner_diff.py:97-124):
set differences and intersection of the two key sets, their cardinalities,
and the three sorted detail listings. -/
def compare_results (image : String) (trivy_vulns grype_vulns : Finset JKey)
    (trivy_severity grype_severity : Multiset String) :
    Except PyErr ImageComparison := do
  let dOnlyTrivy ← pySortedKeys (onlyTrivySet trivy_vulns grype_vulns)
  let dOnlyGrype ← pySortedKeys (onlyGrypeSet trivy_vulns grype_vulns)
  let dCommon ← pySortedKeys (bothSet trivy_vulns grype_vulns)
  .ok { image := image
        trivy_total := trivy_vulns.card
        trivy_severity := trivy_severity
        grype_total := grype_vulns.card
        grype_severity := grype_severity
        common_count := (bothSet trivy_vulns grype_vulns).card
        only_trivy_count := (onlyTrivySet trivy_vulns grype_vulns).card
        only_grype_count := (onlyGrypeSet trivy_vulns grype_vulns).card
        only_trivy := dOnlyTrivy
        only_grype := dOnlyGrype
        common := dCommon }

/-- The `summary` part of the report built by
`VulnerabilityScanner.generate_report` (src/scanner_diff.py:166-182). -/
structure Summary where
  images_scanned : Nat
  trivy_total_findings : Nat
  trivy_severity : Multiset String
  grype_total_findings : Nat
  grype_severity : Multiset String
  common_findings : Nat
  only_trivy : Nat
  only_grype : Nat

instance : DecidableEq Summary := fun x y =>
  decidable_of_iff
    (x.images_scanned = y.images_scanned ∧
      x.trivy_total_findings = y.trivy_total_findings ∧
      x.trivy_severity = y.trivy_severity ∧
      x.grype_total_findings = y.grype_total_findings ∧
      x.grype_severity = y.grype_severity ∧
      x.common_findings = y.common_findings ∧
      x.only_trivy = y.only_trivy ∧ x.only_grype = y.only_grype)
    (by cases x; cases y; simp)

/-- The full report: `summary` plus the ordered `per_image` records. -/
structure Report where
  summary : Summary
  per_image : List ImageComparison

instance : DecidableEq Report := fun x y =>
  decidable_of_iff (x.summary = y.summary ∧ x.per_image = y.per_image)
    (by cases x; cases y; simp)

/-- `VulnerabilityScanner.generate_report` (src/scanner_diff.py:144-184):
fold the accumulated per-image records left-to-right, summing each
scanner's totals, their severity counters key-wise, and the three
comparison counts; `images_scanned` is `len(self.images)`. -/
def generate_report (images : List String) (results : List ImageComparison) :
    Report :=
  { summary :=
      { images_scanned := images.length
        trivy_total_findings := results.foldl (fun acc r => acc + r.trivy_total) 0
        trivy_severity := results.foldl (fun acc r => acc + r.trivy_severity) 0
        grype_total_findings := results.foldl (fun acc r => acc + r.grype_total) 0
        grype_severity := results.foldl (fun acc r => acc + r.grype_severity) 0
        common_findings := results.foldl (fun acc r => acc + r.common_count) 0
        only_trivy := results.foldl (fun acc r => acc + r.only_trivy_count) 0
        only_grype := results.foldl (fun acc r => acc + r.only_grype_count) 0 }
    per_image := results }

/-- One iteration of the `scan_all` loop (src/scanner_diff.py:128-142):
run both adapters on the image (given each scanner's process outcome via
the oracles), extract both normalized results, and compare them. Any
uncaught Python exception propagates. -/
def processImage (parse : String → Option Json)
    (trivyProc grypeProc : String → ProcResult) (image : String) :
    Except PyErr ImageComparison := do
  let trivy_data ← scan_with_trivy parse (trivyProc image)
  let grype_data ← scan_with_grype parse (grypeProc image)
  let tr ← extract_trivy_vulns trivy_data
  let gr ← extract_grype_vulns grype_data
  compare_results image tr.finding_keys gr.finding_keys tr.severity gr.severity

/-- `VulnerabilityScanner.scan_all` (src/scanner_diff.py:126-142): process
the images in order, appending one comparison record per image to
`self.results`; an uncaught exception anywhere aborts the loop. -/
def scan_all (parse : String → Option Json)
    (trivyProc grypeProc : String → ProcResult) :
    List String → Except PyErr (List ImageComparison)
  | [] => .ok []
  | image :: rest => do
    let comparison ← processImage parse trivyProc grypeProc image
    let more ← scan_all parse trivyProc grypeProc rest
    .ok (comparison :: more)

/-- Every key of the set is a pair of strings — the element type the
source's own annotation (`Set[Tuple[str, str]]`) gives the key sets. -/
def StrKeys (s : Finset JKey) : Prop := ∀ k ∈ s, (keyStr? k).isSome

instance (s : Finset JKey) : Decidable (StrKeys s) :=
  Finset.decidableDforallFinset

/-- The lexicographic order on finding keys whose components are strings
(the order Python's `sorted` uses on `(str, str)` tuples). -/
def jkeyLE (a b : JKey) : Prop :=
  ∃ x y, keyStr? a = some x ∧ keyStr? b = some y ∧ keyLE x y

/-- `strOrAbsent fs key`: the field is either absent or holds a string —
the shapes under which the extractors' per-finding reads cannot raise. -/
def strOrAbsent (fs : List (String × Json)) (key : String) : Bool :=
  match fs.lookup key with
  | some (.str _) => true
  | some _ => false
  | none => true

/-- A Trivy vulnerability entry whose present fields have the expected
types (a dict; id, package name, and severity strings when present). -/
def trivyVulnOk : Json → Bool
  | .obj fs =>
    strOrAbsent fs "VulnerabilityID" && strOrAbsent fs "PkgName" &&
      strOrAbsent fs "Severity"
  | _ => false

/-- A Trivy result entry whose present levels have the expected types:
a dict whose `Vulnerabilities`, when present, is a list of well-shaped
vulnerability entries. -/
def trivyResultOk : Json → Bool
  | .obj fs =>
    (match fs.lookup "Vulnerabilities" with
     | none => true
     | some (.arr vs) => vs.all trivyVulnOk
     | some _ => false)
  | _ => false

/-- The `Results` entry of a Trivy dict is absent or is a list of
well-shaped result entries. -/
def trivyResultsOkAt (fs : List (String × Json)) : Bool :=
  match fs.lookup "Results" with
  | none => true
  | some (.arr rs) => rs.all trivyResultOk
  | some _ => false

/-- A truthy Trivy document of the expected shape: a dict whose `Results`
is absent or well-shaped. -/
def trivyShapeOk : Json → Bool
  | .obj fs => trivyResultsOkAt fs
  | _ => false

/-- A Trivy document each of whose present levels has the expected type:
falsy (immediately treated as empty), or a dict whose `Results`, when
present, is a list of well-shaped result entries. Absent levels are
allowed everywhere. -/
def trivyTolerable (j : Json) : Bool := pyFalsy j || trivyShapeOk j

/-- A Grype match entry whose present levels have the expected types:
a dict whose `vulnerability` and `artifact`, when present, are dicts with
string `id`/`severity`/`name` fields when present. -/
def grypeMatchOk : Json → Bool
  | .obj fs =>
    (match fs.lookup "vulnerability" with
     | none => true
     | some (.obj vf) => strOrAbsent vf "id" && strOrAbsent vf "severity"
     | some _ => false) &&
    (match fs.lookup "artifact" with
     | none => true
     | some (.obj af) => strOrAbsent af "name"
     | some _ => false)
  | _ => false

/-- The `matches` entry of a Grype dict is absent or is a list of
well-shaped match entries. -/
def grypeMatchesOkAt (fs : List (String × Json)) : Bool :=
  match fs.lookup "matches" with
  | none => true
  | some (.arr ms) => ms.all grypeMatchOk
  | some _ => false

/-- A truthy Grype document of the expected shape: a dict whose `matches`
is absent or well-shaped. -/
def grypeShapeOk : Json → Bool
  | .obj fs => grypeMatchesOkAt fs
  | _ => false

/-- A Grype document each of whose present levels has the expected type:
falsy, or a dict whose `matches`, when present, is a list of well-shaped
match entries. Absent levels are allowed everywhere. -/
def grypeTolerable (j : Json) : Bool := pyFalsy j || grypeShapeOk j

/-- A Trivy document holding exactly one finding with the given id,
package name, and severity label. -/
def trivyDoc (vid pkg sev : String) : Json :=
  .obj [("Results", .arr [.obj [("Vulnerabilities", .arr
    [.obj [("VulnerabilityID", .str vid), ("PkgName", .str pkg),
           ("Severity", .str sev)]])]])]

/-- A Trivy document holding exactly one finding with no severity field. -/
def trivyDocNoSev (vid pkg : String) : Json :=
  .obj [("Results", .arr [.obj [("Vulnerabilities", .arr
    [.obj [("VulnerabilityID", .str vid), ("PkgName", .str pkg)]])]])]

/-- A Grype document holding exactly one match with the given id, package
name, and severity label. -/
def grypeDoc (vid pkg sev : String) : Json :=
  .obj [("matches", .arr
    [.obj [("vulnerability", .obj [("id", .str vid), ("severity", .str sev)]),
           ("artifact", .obj [("name", .str pkg)])]])]

/-- A Grype document holding exactly one match with no severity field. -/
def grypeDocNoSev (vid pkg : String) : Json :=
  .obj [("matches", .arr
    [.obj [("vulnerability", .obj [("id", .str vid)]),
           ("artifact", .obj [("name", .str pkg)])]])]

theorem accumulate_foldl (fs : List RawFinding) (r : NormalizedScanResult) :
    fs.foldl accumStep r =
      ⟨keysOf fs ∪ r.finding_keys, sevsOf fs + r.severity⟩ := by
  induction fs generalizing r with
  | nil => simp [keysOf, sevsOf]
  | cons f fs ih =>
    rw [List.foldl_cons, ih]
    by_cases hq : qualifies f
    · have hk : keysOf (f :: fs) = insert (f.vuln_id, f.pkg_name) (keysOf fs) := by
        simp [keysOf, List.filter_cons, hq]
      have hsv : sevsOf (f :: fs) = f.severity ::ₘ sevsOf fs := by
        simp [sevsOf, List.filter_cons, hq]
      have hstep : accumStep r f =
          ⟨insert (f.vuln_id, f.pkg_name) r.finding_keys,
           f.severity ::ₘ r.severity⟩ := by
        simp [accumStep, hq]
      rw [hstep, hk, hsv, Finset.union_insert, Finset.insert_union,
        Multiset.add_cons, Multiset.cons_add]
    · have hk : keysOf (f :: fs) = keysOf fs := by
        simp [keysOf, List.filter_cons, hq]
      have hsv : sevsOf (f :: fs) = sevsOf fs := by
        simp [sevsOf, List.filter_cons, hq]
      have hstep : accumStep r f = r := by simp [accumStep, hq]
      rw [hstep, hk, hsv]

theorem accumulate_eq (fs : List RawFinding) :
    accumulate fs = ⟨keysOf fs, sevsOf fs⟩ := by
  rw [accumulate, accumulate_foldl]
  simp

theorem extract_trivy_ok_eq (j : Json) (fs : List RawFinding)
    (r : NormalizedScanResult) (hraw : trivyRawFindings j = .ok fs)
    (hex : extract_trivy_vulns j = .ok r) : r = ⟨keysOf fs, sevsOf fs⟩ := by
  rw [← accumulate_eq]
  unfold extract_trivy_vulns at hex
  by_cases ht : pyTruthy j
  · rw [if_pos ht, hraw] at hex
    exact (Except.ok.inj hex).symm
  · rw [if_neg ht] at hex
    cases j with
    | obj fields =>
      have hf : fields = [] := by
        simpa [pyTruthy, pyFalsy, List.isEmpty_iff] using ht
      subst hf
      have h0 : trivyRawFindings (Json.obj []) = .ok [] := rfl
      rw [h0] at hraw
      rw [← Except.ok.inj hraw]
      simpa [accumulate] using (Except.ok.inj hex).symm
    | null => exact Except.noConfusion hraw
    | bool b => exact Except.noConfusion hraw
    | num n => exact Except.noConfusion hraw
    | str s => exact Except.noConfusion hraw
    | arr xs => exact Except.noConfusion hraw

theorem extract_grype_ok_eq (j : Json) (fs : List RawFinding)
    (r : NormalizedScanResult) (hraw : grypeRawFindings j = .ok fs)
    (hex : extract_grype_vulns j = .ok r) : r = ⟨keysOf fs, sevsOf fs⟩ := by
  rw [← accumulate_eq]
  unfold extract_grype_vulns at hex
  by_cases ht : pyTruthy j
  · rw [if_pos ht, hraw] at hex
    exact (Except.ok.inj hex).symm
  · rw [if_neg ht] at hex
    cases j with
    | obj fields =>
      have hf : fields = [] := by
        simpa [pyTruthy, pyFalsy, List.isEmpty_iff] using ht
      subst hf
      have h0 : grypeRawFindings (Json.obj []) = .ok [] := rfl
      rw [h0] at hraw
      rw [← Except.ok.inj hraw]
      simpa [accumulate] using (Except.ok.inj hex).symm
    | null => exact Except.noConfusion hraw
    | bool b => exact Except.noConfusion hraw
    | num n => exact Except.noConfusion hraw
    | str s => exact Except.noConfusion hraw
    | arr xs => exact Except.noConfusion hraw

/-- C1: for every pair of normalized key sets, the three sets
`compare_results` computes — `only_trivy`, `only_grype`, `common`
(src/scanner_diff.py:106-108) — are pairwise disjoint and their union is
the union of the two input key sets: they partition `A.keys ∪ B.keys`
with no overlap and no omission. -/
theorem compare_results_partition (t g : Finset JKey) :
    Disjoint (onlyTrivySet t g) (onlyGrypeSet t g) ∧
    Disjoint (onlyTrivySet t g) (bothSet t g) ∧
    Disjoint (onlyGrypeSet t g) (bothSet t g) ∧
    onlyTrivySet t g ∪ onlyGrypeSet t g ∪ bothSet t g = t ∪ g := by
  refine ⟨?_, ?_, ?_, ?_⟩
  · rw [Finset.disjoint_left]
    intro k hk hk'
    simp only [onlyTrivySet, onlyGrypeSet, Finset.mem_sdiff] at hk hk'
    exact hk.2 hk'.1
  · rw [Finset.disjoint_left]
    intro k hk hk'
    simp only [onlyTrivySet, bothSet, Finset.mem_sdiff, Finset.mem_inter] at hk hk'
    exact hk.2 hk'.2
  · rw [Finset.disjoint_left]
    intro k hk hk'
    simp only [onlyGrypeSet, bothSet, Finset.mem_sdiff, Finset.mem_inter] at hk hk'
    exact hk.2 hk'.1
  · ext k
    simp only [onlyTrivySet, onlyGrypeSet, bothSet, Finset.mem_union,
      Finset.mem_sdiff, Finset.mem_inter]
    tauto

theorem foldl_add_eq {M : Type} [AddCommMonoid M] (f : ImageComparison → M) :
    ∀ (l : List ImageComparison) (init : M),
      l.foldl (fun acc r => acc + f r) init = init + (l.map f).sum := by
  intro l
  induction l with
  | nil => intro init; simp
  | cons a l ih => intro init; simp [ih, add_assoc]

/-- C2: aggregation is order-independent — permuting the per-image
comparison records before folding them with `generate_report` yields the
identical summary (totals per scanner, key-wise-summed severity
histograms, and the three comparison counts). -/
theorem generate_report_perm_invariant (images : List String)
    (rs rs' : List ImageComparison) (h : rs.Perm rs') :
    (generate_report images rs).summary = (generate_report images rs').summary := by
  have hsum : ∀ {M : Type} [AddCommMonoid M] (f : ImageComparison → M),
      (rs.map f).sum = (rs'.map f).sum :=
    fun f => (h.map f).sum_eq
  simp only [generate_report, foldl_add_eq]
  congr 1
  all_goals rw [hsum]

/-- Witness for C2 at a concrete two-record permutation. -/
theorem generate_report_perm_invariant_witness :
    (generate_report ["a", "b"]
      [{ image := "a", trivy_total := 1, trivy_severity := {"HIGH"},
         grype_total := 0, grype_severity := 0, common_count := 0,
         only_trivy_count := 1, only_grype_count := 0,
         only_trivy := [(.str "c", .str "p")], only_grype := [], common := [] },
       { image := "b", trivy_total := 0, trivy_severity := 0,
         grype_total := 2, grype_severity := {"LOW", "HIGH"}, common_count := 0,
         only_trivy_count := 0, only_grype_count := 2,
         only_trivy := [], only_grype := [(.str "d", .str "q"), (.str "e", .str "r")],
         common := [] }]).summary =
    (generate_report ["a", "b"]
      [{ image := "b", trivy_total := 0, trivy_severity := 0,
         grype_total := 2, grype_severity := {"LOW", "HIGH"}, common_count := 0,
         only_trivy_count := 0, only_grype_count := 2,
         only_trivy := [], only_grype := [(.str "d", .str "q"), (.str "e", .str "r")],
         common := [] },
       { image := "a", trivy_total := 1, trivy_severity := {"HIGH"},
         grype_total := 0, grype_severity := 0, common_count := 0,
         only_trivy_count := 1, only_grype_count := 0,
         only_trivy := [(.str "c", .str "p")], only_grype := [], common := [] }]).summary :=
  generate_report_perm_invariant ["a", "b"] _ _ (by decide)

/-- Counterexample to C4 as stated: when the process invocation itself
fails (the scanner binary is missing), `subprocess.run` raises
`FileNotFoundError`, which the adapters' `except json.JSONDecodeError`
clause does not catch — the adapter does not return the recoverable empty
result, the exception propagates. -/
theorem adapters_counterexample :
    scan_with_trivy (fun _ => none) .invocationError =
      .error .fileNotFoundError ∧
    scan_with_grype (fun _ => none) .invocationError =
      .error .fileNotFoundError := by
  constructor <;> rfl

/-- C4 (amended): for every adapter invocation whose process completes —
whatever its exit code — the adapter returns a recoverable result: empty
stdout yields `{}`, non-empty stdout that fails to parse as JSON yields
`{}`, and no error is raised; but a process invocation that itself raises
(binary missing) propagates the exception. -/
theorem adapters_degrade_on_completed (parse : String → Option Json)
    (stdout : String) (code : Int) :
    (∃ j, scan_with_trivy parse (.completed stdout code) = .ok j) ∧
    (∃ j, scan_with_grype parse (.completed stdout code) = .ok j) ∧
    (stdout = "" →
      scan_with_trivy parse (.completed stdout code) = .ok (.obj []) ∧
      scan_with_grype parse (.completed stdout code) = .ok (.obj [])) ∧
    (parse stdout = none →
      scan_with_trivy parse (.completed stdout code) = .ok (.obj []) ∧
      scan_with_grype parse (.completed stdout code) = .ok (.obj [])) := by
  unfold scan_with_trivy scan_with_grype
  by_cases hs : stdout = ""
  · simp [hs]
  · cases hp : parse stdout <;> simp [hs, hp]

/-- Witness for C4's amended theorem: a process that completed with exit
code 1 and unparseable empty output degrades to `{}` on both adapters. -/
theorem adapters_degrade_on_completed_witness :
    scan_with_trivy (fun _ => none) (.completed "" 1) = .ok (.obj []) ∧
    scan_with_grype (fun _ => none) (.completed "" 1) = .ok (.obj []) :=
  (adapters_degrade_on_completed (fun _ => none) "" 1).2.2.1 rfl

theorem keysOf_truthy (fs : List RawFinding) (a b : Json)
    (hab : (a, b) ∈ keysOf fs) : pyTruthy a ∧ pyTruthy b := by
  simp only [keysOf, List.mem_toFinset, List.mem_map, List.mem_filter] at hab
  obtain ⟨f, ⟨_, hq⟩, heq⟩ := hab
  rw [qualifies, Bool.and_eq_true] at hq
  obtain ⟨h1, h2⟩ := Prod.mk.inj heq
  exact ⟨h1 ▸ hq.1, h2 ▸ hq.2⟩

theorem sevsOf_card (fs : List RawFinding) :
    Multiset.card (sevsOf fs) = (fs.filter qualifies).length := by
  simp [sevsOf]

theorem keysOf_card_le (fs : List RawFinding) :
    (keysOf fs).card ≤ (fs.filter qualifies).length := by
  calc (keysOf fs).card
      ≤ ((fs.filter qualifies).map (fun f => (f.vuln_id, f.pkg_name))).length :=
        List.toFinset_card_le _
    _ = (fs.filter qualifies).length := List.length_map _ _

/-- C5: a raw finding whose vulnerability id or package name is empty (or
absent, which defaults to empty) is dropped entirely by both extractors:
every key in the returned key set has both components Python-truthy (for
the string fields involved, non-empty), and the severity histogram is
exactly the multiset of severity labels of the qualifying findings — one
with a falsy id or package name contributes to neither. -/
theorem extract_drops_unkeyed (j : Json) (fs : List RawFinding)
    (r : NormalizedScanResult) :
    (extract_trivy_vulns j = .ok r → trivyRawFindings j = .ok fs →
      (∀ a b, (a, b) ∈ r.finding_keys → pyTruthy a ∧ pyTruthy b) ∧
      r.severity = sevsOf fs) ∧
    (extract_grype_vulns j = .ok r → grypeRawFindings j = .ok fs →
      (∀ a b, (a, b) ∈ r.finding_keys → pyTruthy a ∧ pyTruthy b) ∧
      r.severity = sevsOf fs) := by
  constructor
  · intro hex hraw
    rw [extract_trivy_ok_eq j fs r hraw hex]
    exact ⟨fun a b hab => keysOf_truthy fs a b hab, rfl⟩
  · intro hex hraw
    rw [extract_grype_ok_eq j fs r hraw hex]
    exact ⟨fun a b hab => keysOf_truthy fs a b hab, rfl⟩

/-- Witness for C5: a Trivy document with one empty-id finding and one
well-keyed finding; the extractor keeps only the well-keyed one in both
the key set and the histogram. -/
theorem extract_drops_unkeyed_witness :
    (∀ a b,
        (a, b) ∈ (NormalizedScanResult.mk {(.str "CVE-1", .str "q")} {"LOW"}).finding_keys →
        pyTruthy a ∧ pyTruthy b) ∧
    (NormalizedScanResult.mk {(.str "CVE-1", .str "q")} {"LOW"}).severity =
      sevsOf [⟨.str "", .str "p", "HIGH"⟩, ⟨.str "CVE-1", .str "q", "LOW"⟩] :=
  (extract_drops_unkeyed
    (.obj [("Results", .arr [.obj [("Vulnerabilities", .arr
      [.obj [("VulnerabilityID", .str ""), ("PkgName", .str "p"),
             ("Severity", .str "HIGH")],
       .obj [("VulnerabilityID", .str "CVE-1"), ("PkgName", .str "q"),
             ("Severity", .str "LOW")]])]])])
    [⟨.str "", .str "p", "HIGH"⟩, ⟨.str "CVE-1", .str "q", "LOW"⟩]
    ⟨{(.str "CVE-1", .str "q")}, {"LOW"}⟩).1 (by decide) (by decide)

/-- C6: the severity histogram counts every qualifying raw finding once
per occurrence, independent of key deduplication: its total size equals
the number of qualifying raw findings, while the key set is the
deduplicated set of their keys, so the histogram total is at least the
key-set cardinality (duplicate keys inflate the histogram but collapse in
the key set). -/
theorem histogram_counts_every_occurrence (j : Json) (fs : List RawFinding)
    (r : NormalizedScanResult) :
    (extract_trivy_vulns j = .ok r → trivyRawFindings j = .ok fs →
      Multiset.card r.severity = (fs.filter qualifies).length ∧
      r.finding_keys = keysOf fs ∧
      r.finding_keys.card ≤ Multiset.card r.severity) ∧
    (extract_grype_vulns j = .ok r → grypeRawFindings j = .ok fs →
      Multiset.card r.severity = (fs.filter qualifies).length ∧
      r.finding_keys = keysOf fs ∧
      r.finding_keys.card ≤ Multiset.card r.severity) := by
  constructor
  · intro hex hraw
    rw [extract_trivy_ok_eq j fs r hraw hex]
    exact ⟨sevsOf_card fs, rfl, (keysOf_card_le fs).trans (sevsOf_card fs).symm.le⟩
  · intro hex hraw
    rw [extract_grype_ok_eq j fs r hraw hex]
    exact ⟨sevsOf_card fs, rfl, (keysOf_card_le fs).trans (sevsOf_card fs).symm.le⟩

/-- Witness for C6: a Grype document reporting the same
`(CVE-1, openssl)` key twice; the histogram holds two labels while the
key set holds one key. -/
theorem histogram_counts_every_occurrence_witness :
    Multiset.card (NormalizedScanResult.mk
        {(.str "CVE-1", .str "openssl")} {"HIGH", "MEDIUM"}).severity =
      ([⟨.str "CVE-1", .str "openssl", "HIGH"⟩,
        ⟨.str "CVE-1", .str "openssl", "MEDIUM"⟩].filter qualifies).length ∧
    (NormalizedScanResult.mk
        {(.str "CVE-1", .str "openssl")} {"HIGH", "MEDIUM"}).finding_keys =
      keysOf [⟨.str "CVE-1", .str "openssl", "HIGH"⟩,
              ⟨.str "CVE-1", .str "openssl", "MEDIUM"⟩] ∧
    (NormalizedScanResult.mk
        {(.str "CVE-1", .str "openssl")} {"HIGH", "MEDIUM"}).finding_keys.card ≤
      Multiset.card (NormalizedScanResult.mk
        {(.str "CVE-1", .str "openssl")} {"HIGH", "MEDIUM"}).severity :=
  (histogram_counts_every_occurrence
    (.obj [("matches", .arr
      [.obj [("vulnerability", .obj [("id", .str "CVE-1"), ("severity", .str "High")]),
             ("artifact", .obj [("name", .str "openssl")])],
       .obj [("vulnerability", .obj [("id", .str "CVE-1"), ("severity", .str "Medium")]),
             ("artifact", .obj [("name", .str "openssl")])]])])
    [⟨.str "CVE-1", .str "openssl", "HIGH"⟩,
     ⟨.str "CVE-1", .str "openssl", "MEDIUM"⟩]
    ⟨{(.str "CVE-1", .str "openssl")}, {"HIGH", "MEDIUM"}⟩).2 (by decide) (by decide)

theorem accumulate_single_str (a b sev : String) (ha : a ≠ "") (hb : b ≠ "") :
    accumulate [⟨.str a, .str b, sev⟩] = ⟨{(.str a, .str b)}, {sev}⟩ := by
  simp [accumulate, accumStep, qualifies, pyTruthy, pyFalsy, ha, hb]

/-- C7: severity bucketing is case-insensitive at the label level — both
extractors upper-case the severity label before counting, so any two
labels equal up to case land in the same single bucket, namely the
upper-cased label: on a one-finding document the histogram is exactly
`{upper(label)}`, and documents differing only in the label's case
extract identically. -/
theorem severity_case_insensitive (vid pkg s t : String)
    (hvid : vid ≠ "") (hpkg : pkg ≠ "") (hst : asciiUpper s = asciiUpper t) :
    extract_trivy_vulns (trivyDoc vid pkg s) =
      extract_trivy_vulns (trivyDoc vid pkg t) ∧
    extract_grype_vulns (grypeDoc vid pkg s) =
      extract_grype_vulns (grypeDoc vid pkg t) ∧
    extract_trivy_vulns (trivyDoc vid pkg s) =
      .ok ⟨{(.str vid, .str pkg)}, {asciiUpper s}⟩ ∧
    extract_grype_vulns (grypeDoc vid pkg s) =
      .ok ⟨{(.str vid, .str pkg)}, {asciiUpper s}⟩ := by
  have e1 : extract_trivy_vulns (trivyDoc vid pkg s) =
      .ok (accumulate [⟨.str vid, .str pkg, asciiUpper s⟩]) := rfl
  have e2 : extract_trivy_vulns (trivyDoc vid pkg t) =
      .ok (accumulate [⟨.str vid, .str pkg, asciiUpper t⟩]) := rfl
  have e3 : extract_grype_vulns (grypeDoc vid pkg s) =
      .ok (accumulate [⟨.str vid, .str pkg, asciiUpper s⟩]) := rfl
  have e4 : extract_grype_vulns (grypeDoc vid pkg t) =
      .ok (accumulate [⟨.str vid, .str pkg, asciiUpper t⟩]) := rfl
  rw [e1, e2, e3, e4, ← hst,
    accumulate_single_str vid pkg (asciiUpper s) hvid hpkg]
  exact ⟨rfl, rfl, rfl, rfl⟩

/-- Witness for C7 at the labels `"high"` and `"High"` (bucket `HIGH`). -/
theorem severity_case_insensitive_witness :
    extract_trivy_vulns (trivyDoc "CVE-2021-1" "openssl" "high") =
      extract_trivy_vulns (trivyDoc "CVE-2021-1" "openssl" "High") ∧
    extract_grype_vulns (grypeDoc "CVE-2021-1" "openssl" "high") =
      extract_grype_vulns (grypeDoc "CVE-2021-1" "openssl" "High") ∧
    extract_trivy_vulns (trivyDoc "CVE-2021-1" "openssl" "high") =
      .ok ⟨{(.str "CVE-2021-1", .str "openssl")}, {asciiUpper "high"}⟩ ∧
    extract_grype_vulns (grypeDoc "CVE-2021-1" "openssl" "high") =
      .ok ⟨{(.str "CVE-2021-1", .str "openssl")}, {asciiUpper "high"}⟩ :=
  severity_case_insensitive "CVE-2021-1" "openssl" "high" "High"
    (by decide) (by decide) (by decide)

/-- C9: the two extractors use different raw defaults for an absent
severity field (`"UNKNOWN"` for Trivy, `"Unknown"` for Grype), but after
upper-casing both send a finding with no severity field to the same
histogram bucket, the label `UNKNOWN`. -/
theorem missing_severity_same_bucket (vid pkg : String)
    (hvid : vid ≠ "") (hpkg : pkg ≠ "") :
    extract_trivy_vulns (trivyDocNoSev vid pkg) =
      .ok ⟨{(.str vid, .str pkg)}, {"UNKNOWN"}⟩ ∧
    extract_grype_vulns (grypeDocNoSev vid pkg) =
      .ok ⟨{(.str vid, .str pkg)}, {"UNKNOWN"}⟩ := by
  have e1 : extract_trivy_vulns (trivyDocNoSev vid pkg) =
      .ok (accumulate [⟨.str vid, .str pkg, "UNKNOWN"⟩]) := rfl
  have e2 : extract_grype_vulns (grypeDocNoSev vid pkg) =
      .ok (accumulate [⟨.str vid, .str pkg, "UNKNOWN"⟩]) := rfl
  rw [e1, e2, accumulate_single_str vid pkg "UNKNOWN" hvid hpkg]
  exact ⟨rfl, rfl⟩

/-- Witness for C9 at a concrete finding with no severity field. -/
theorem missing_severity_same_bucket_witness :
    extract_trivy_vulns (trivyDocNoSev "CVE-1" "zlib") =
      .ok ⟨{(.str "CVE-1", .str "zlib")}, {"UNKNOWN"}⟩ ∧
    extract_grype_vulns (grypeDocNoSev "CVE-1" "zlib") =
      .ok ⟨{(.str "CVE-1", .str "zlib")}, {"UNKNOWN"}⟩ :=
  missing_severity_same_bucket "CVE-1" "zlib" (by decide) (by decide)

theorem mapM_ok_of_forall {α β : Type} (f : α → Except PyErr β) :
    ∀ l : List α, (∀ x ∈ l, ∃ y, f x = .ok y) → ∃ ys, l.mapM f = .ok ys := by
  intro l
  induction l with
  | nil => exact fun _ => ⟨[], rfl⟩
  | cons a t ih =>
    intro h
    obtain ⟨y, hy⟩ := h a (List.mem_cons_self a t)
    obtain ⟨ys, hys⟩ := ih (fun x hx => h x (List.mem_cons_of_mem a hx))
    refine ⟨y :: ys, ?_⟩
    rw [List.mapM_cons, hy, hys]
    rfl

theorem trivyFinding_obj (fs : List (String × Json)) :
    trivyFinding (.obj fs) =
      (do
        let sv ← pyUpper ((fs.lookup "Severity").getD (.str "UNKNOWN"))
        Except.ok ⟨(fs.lookup "VulnerabilityID").getD (.str ""),
                   (fs.lookup "PkgName").getD (.str ""), sv⟩) := rfl

theorem trivyFinding_ok (v : Json) (hv : trivyVulnOk v = true) :
    ∃ f, trivyFinding v = .ok f := by
  cases v with
  | obj fs =>
    rw [trivyVulnOk, Bool.and_eq_true, Bool.and_eq_true] at hv
    rcases hs : fs.lookup "Severity" with _ | sv
    · exact ⟨_, by rw [trivyFinding_obj, hs]; rfl⟩
    · have := hv.2
      rw [strOrAbsent, hs] at this
      cases sv with
      | str s => exact ⟨_, by rw [trivyFinding_obj, hs]; rfl⟩
      | null => exact Bool.noConfusion this
      | bool b => exact Bool.noConfusion this
      | num n => exact Bool.noConfusion this
      | arr xs => exact Bool.noConfusion this
      | obj o => exact Bool.noConfusion this
  | null => exact Bool.noConfusion hv
  | bool b => exact Bool.noConfusion hv
  | num n => exact Bool.noConfusion hv
  | str s => exact Bool.noConfusion hv
  | arr xs => exact Bool.noConfusion hv

theorem trivyResultFindings_obj (fs : List (String × Json)) :
    trivyResultFindings (.obj fs) =
      (do
        let vulnList ← pyIter ((fs.lookup "Vulnerabilities").getD (.arr []))
        vulnList.mapM trivyFinding) := rfl

theorem trivyResultFindings_ok (r : Json) (hr : trivyResultOk r = true) :
    ∃ fs, trivyResultFindings r = .ok fs := by
  cases r with
  | obj fs =>
    rw [trivyResultOk] at hr
    rcases hv : fs.lookup "Vulnerabilities" with _ | v
    · exact ⟨[], by rw [trivyResultFindings_obj, hv]; rfl⟩
    · rw [hv] at hr
      cases v with
      | arr vs =>
        obtain ⟨ys, hys⟩ := mapM_ok_of_forall trivyFinding vs
          (fun x hx => trivyFinding_ok x (by
            rw [List.all_eq_true] at hr
            exact hr x hx))
        exact ⟨ys, by rw [trivyResultFindings_obj, hv]; exact hys⟩
      | null => exact Bool.noConfusion hr
      | bool b => exact Bool.noConfusion hr
      | num n => exact Bool.noConfusion hr
      | str s => exact Bool.noConfusion hr
      | obj o => exact Bool.noConfusion hr
  | null => exact Bool.noConfusion hr
  | bool b => exact Bool.noConfusion hr
  | num n => exact Bool.noConfusion hr
  | str s => exact Bool.noConfusion hr
  | arr xs => exact Bool.noConfusion hr

theorem grypeFinding_obj (fs : List (String × Json)) :
    grypeFinding (.obj fs) =
      (do
        let vuln_id ← dictGet ((fs.lookup "vulnerability").getD (.obj []))
          "id" (.str "")
        let pkg_name ← dictGet ((fs.lookup "artifact").getD (.obj []))
          "name" (.str "")
        let sevRaw ← dictGet ((fs.lookup "vulnerability").getD (.obj []))
          "severity" (.str "Unknown")
        let severity ← pyUpper sevRaw
        Except.ok ⟨vuln_id, pkg_name, severity⟩) := rfl

theorem grypeFinding_ok (m : Json) (hm : grypeMatchOk m = true) :
    ∃ f, grypeFinding m = .ok f := by
  cases m with
  | obj fs =>
    rw [grypeMatchOk, Bool.and_eq_true] at hm
    obtain ⟨hv, ha⟩ := hm
    have hvf : ∃ vf, (fs.lookup "vulnerability").getD (.obj []) = .obj vf ∧
        strOrAbsent vf "severity" = true := by
      rcases h : fs.lookup "vulnerability" with _ | v
      · exact ⟨[], rfl, rfl⟩
      · rw [h] at hv
        cases v with
        | obj vf =>
          rw [Bool.and_eq_true] at hv
          exact ⟨vf, rfl, hv.2⟩
        | null => exact Bool.noConfusion hv
        | bool b => exact Bool.noConfusion hv
        | num n => exact Bool.noConfusion hv
        | str s => exact Bool.noConfusion hv
        | arr xs => exact Bool.noConfusion hv
    have haf : ∃ af, (fs.lookup "artifact").getD (.obj []) = .obj af := by
      rcases h : fs.lookup "artifact" with _ | a
      · exact ⟨[], rfl⟩
      · rw [h] at ha
        cases a with
        | obj af => exact ⟨af, rfl⟩
        | null => exact Bool.noConfusion ha
        | bool b => exact Bool.noConfusion ha
        | num n => exact Bool.noConfusion ha
        | str s => exact Bool.noConfusion ha
        | arr xs => exact Bool.noConfusion ha
    obtain ⟨vf, hvf1, hvf2⟩ := hvf
    obtain ⟨af, haf1⟩ := haf
    rcases hs : vf.lookup "severity" with _ | sv
    · exact ⟨_, by rw [grypeFinding_obj, hvf1, haf1]; rw [dictGet, dictGet, dictGet, hs]; rfl⟩
    · rw [strOrAbsent, hs] at hvf2
      cases sv with
      | str s =>
        exact ⟨_, by rw [grypeFinding_obj, hvf1, haf1]; rw [dictGet, dictGet, dictGet, hs]; rfl⟩
      | null => exact Bool.noConfusion hvf2
      | bool b => exact Bool.noConfusion hvf2
      | num n => exact Bool.noConfusion hvf2
      | arr xs => exact Bool.noConfusion hvf2
      | obj o => exact Bool.noConfusion hvf2
  | null => exact Bool.noConfusion hm
  | bool b => exact Bool.noConfusion hm
  | num n => exact Bool.noConfusion hm
  | str s => exact Bool.noConfusion hm
  | arr xs => exact Bool.noConfusion hm

theorem trivyRawFindings_obj (fields : List (String × Json)) :
    trivyRawFindings (.obj fields) =
      (do
        let resultList ← pyIter ((fields.lookup "Results").getD (.arr []))
        let nested ← resultList.mapM trivyResultFindings
        Except.ok nested.flatten) := rfl

theorem grypeRawFindings_obj (fields : List (String × Json)) :
    grypeRawFindings (.obj fields) =
      (do
        let matchList ← pyIter ((fields.lookup "matches").getD (.arr []))
        matchList.mapM grypeFinding) := rfl

/-- Counterexample to C3 as stated: extraction is not total on malformed
structure — on the document that is the (truthy, non-dict) JSON string
`"oops"`, both extractors call `.get` on a value that has no `.get`, and
Python raises `AttributeError` instead of returning an empty
`NormalizedScanResult`. -/
theorem extract_total_counterexample :
    extract_trivy_vulns (.str "oops") = .error .attributeError ∧
    extract_grype_vulns (.str "oops") = .error .attributeError := ⟨rfl, rfl⟩

/-- C3 (amended): extraction tolerates a *missing* structure at every
nesting level — an absent top-level container, absent per-result lists,
absent per-finding fields are each treated as "no findings", and on any
document whose *present* levels have the expected shapes (`trivyTolerable`
/ `grypeTolerable`) the extractor returns a `NormalizedScanResult` without
raising; but a level that is present with an unexpected type (e.g. a
non-dict top level) raises a Python error, so totality holds only on
well-shaped-where-present inputs. -/
theorem extract_tolerant_total (j : Json) :
    (trivyTolerable j = true → ∃ r, extract_trivy_vulns j = .ok r) ∧
    (grypeTolerable j = true → ∃ r, extract_grype_vulns j = .ok r) ∧
    (∀ fields, j = .obj fields → fields.lookup "Results" = none →
      extract_trivy_vulns j = .ok ⟨∅, 0⟩) ∧
    (∀ fields, j = .obj fields → fields.lookup "matches" = none →
      extract_grype_vulns j = .ok ⟨∅, 0⟩) := by
  refine ⟨?_, ?_, ?_, ?_⟩
  · intro hj
    by_cases hf : pyTruthy j
    · have hX : trivyShapeOk j = true := by
        rw [trivyTolerable] at hj
        rcases Bool.or_eq_true_iff.mp hj with h | h
        · exact absurd h (by rw [pyTruthy] at hf; simpa using hf)
        · exact h
      cases j with
      | obj fields =>
        have hX' : trivyResultsOkAt fields = true := hX
        have he : extract_trivy_vulns (.obj fields) =
            (trivyRawFindings (.obj fields)).map accumulate := by
          rw [extract_trivy_vulns, if_pos hf]
        rcases hr : fields.lookup "Results" with _ | v
        · refine ⟨accumulate [], ?_⟩
          rw [he, trivyRawFindings_obj, hr]
          rfl
        · rw [trivyResultsOkAt, hr] at hX'
          cases v with
          | arr rs =>
            obtain ⟨ns, hns⟩ := mapM_ok_of_forall trivyResultFindings rs
              (fun x hx => trivyResultFindings_ok x
                ((List.all_eq_true.mp hX') x hx))
            refine ⟨accumulate ns.flatten, ?_⟩
            rw [he, trivyRawFindings_obj, hr]
            show ((pyIter (.arr rs)).bind _).map accumulate = _
            rw [show pyIter (.arr rs) = .ok rs from rfl]
            show ((rs.mapM trivyResultFindings).bind _).map accumulate = _
            rw [hns]
            rfl
          | null => exact Bool.noConfusion hX'
          | bool b => exact Bool.noConfusion hX'
          | num n => exact Bool.noConfusion hX'
          | str s => exact Bool.noConfusion hX'
          | obj o => exact Bool.noConfusion hX'
      | null => exact Bool.noConfusion hX
      | bool b => exact Bool.noConfusion hX
      | num n => exact Bool.noConfusion hX
      | str s => exact Bool.noConfusion hX
      | arr xs => exact Bool.noConfusion hX
    · exact ⟨⟨∅, 0⟩, by rw [extract_trivy_vulns, if_neg hf]⟩
  · intro hj
    by_cases hf : pyTruthy j
    · have hX : grypeShapeOk j = true := by
        rw [grypeTolerable] at hj
        rcases Bool.or_eq_true_iff.mp hj with h | h
        · exact absurd h (by rw [pyTruthy] at hf; simpa using hf)
        · exact h
      cases j with
      | obj fields =>
        have hX' : grypeMatchesOkAt fields = true := hX
        have he : extract_grype_vulns (.obj fields) =
            (grypeRawFindings (.obj fields)).map accumulate := by
          rw [extract_grype_vulns, if_pos hf]
        rcases hr : fields.lookup "matches" with _ | v
        · refine ⟨accumulate [], ?_⟩
          rw [he, grypeRawFindings_obj, hr]
          rfl
        · rw [grypeMatchesOkAt, hr] at hX'
          cases v with
          | arr ms =>
            obtain ⟨ns, hns⟩ := mapM_ok_of_forall grypeFinding ms
              (fun x hx => grypeFinding_ok x ((List.all_eq_true.mp hX') x hx))
            refine ⟨accumulate ns, ?_⟩
            rw [he, grypeRawFindings_obj, hr]
            show ((pyIter (.arr ms)).bind _).map accumulate = _
            rw [show pyIter (.arr ms) = .ok ms from rfl]
            show ((ms.mapM grypeFinding)).map accumulate = _
            rw [hns]
            rfl
          | null => exact Bool.noConfusion hX'
          | bool b => exact Bool.noConfusion hX'
          | num n => exact Bool.noConfusion hX'
          | str s => exact Bool.noConfusion hX'
          | obj o => exact Bool.noConfusion hX'
      | null => exact Bool.noConfusion hX
      | bool b => exact Bool.noConfusion hX
      | num n => exact Bool.noConfusion hX
      | str s => exact Bool.noConfusion hX
      | arr xs => exact Bool.noConfusion hX
    · exact ⟨⟨∅, 0⟩, by rw [extract_grype_vulns, if_neg hf]⟩
  · rintro fields rfl hr
    by_cases hf : pyTruthy (Json.obj fields)
    · rw [extract_trivy_vulns, if_pos hf, trivyRawFindings_obj, hr]
      rfl
    · rw [extract_trivy_vulns, if_neg hf]
  · rintro fields rfl hr
    by_cases hf : pyTruthy (Json.obj fields)
    · rw [extract_grype_vulns, if_pos hf, grypeRawFindings_obj, hr]
      rfl
    · rw [extract_grype_vulns, if_neg hf]

/-- Witness for C3's amended theorem: well-shaped documents whose inner
levels are all absent extract successfully on both backends. -/
theorem extract_tolerant_total_witness :
    (∃ r, extract_trivy_vulns (.obj [("Results", .arr [.obj []])]) = .ok r) ∧
    (∃ r, extract_grype_vulns (.obj [("matches", .arr [.obj []])]) = .ok r) :=
  ⟨(extract_tolerant_total (.obj [("Results", .arr [.obj []])])).1 (by decide),
   (extract_tolerant_total (.obj [("matches", .arr [.obj []])])).2.1 (by decide)⟩

theorem exbind_ok {ε α β : Type} (a : α) (f : α → Except ε β) :
    (Except.ok a : Except ε α) >>= f = f a := rfl

theorem keyStr?_toStrKey (p : String × String) : keyStr? (toStrKey p) = some p := rfl

theorem toStrKey_keyStr? (k : JKey) (x : String × String)
    (h : keyStr? k = some x) : toStrKey x = k := by
  rcases k with ⟨a, b⟩
  cases a <;> cases b <;>
    first
      | exact Option.noConfusion h
      | (rw [keyStr?] at h
         rw [← Option.some.inj h]
         rfl)

theorem toStrKey_injective : Function.Injective toStrKey := by
  intro a b h
  have h2 := congrArg keyStr? h
  rw [keyStr?_toStrKey, keyStr?_toStrKey] at h2
  exact Option.some.inj h2

theorem insortKeys_sorted (m : Multiset (String × String)) :
    List.Sorted keyLE (insortKeys m) :=
  Quot.inductionOn m (fun l => List.sorted_insertionSort keyLE l)

theorem insortKeys_coe (m : Multiset (String × String)) :
    (insortKeys m : Multiset (String × String)) = m :=
  Quot.inductionOn m (fun l => Quot.sound (List.perm_insertionSort keyLE l))

theorem strKeys_subset {s u : Finset JKey} (h : u ⊆ s) (hs : StrKeys s) :
    StrKeys u :=
  fun k hk => hs k (h hk)

theorem pySortedKeys_ok (s : Finset JKey) (hs : StrKeys s) :
    ∃ l, pySortedKeys s = .ok l ∧ l.toFinset = s ∧
      List.Sorted jkeyLE l ∧ l.Nodup := by
  have hnd : (insortKeys (strPairsOf s).val).Nodup := by
    have h2 := (strPairsOf s).nodup
    rw [← insortKeys_coe (strPairsOf s).val] at h2
    exact Multiset.coe_nodup.mp h2
  have hmemL : ∀ p, p ∈ insortKeys (strPairsOf s).val ↔ p ∈ strPairsOf s := by
    intro p
    rw [← Multiset.mem_coe, insortKeys_coe]
    exact Iff.rfl
  have hmem : ∀ a : JKey,
      a ∈ (insortKeys (strPairsOf s).val).map toStrKey ↔ a ∈ s := by
    intro a
    rw [List.mem_map]
    constructor
    · rintro ⟨p, hp, rfl⟩
      rw [hmemL, strPairsOf, Finset.mem_image] at hp
      obtain ⟨k, hk, hpk⟩ := hp
      obtain ⟨x, hx⟩ := Option.isSome_iff_exists.mp (hs k hk)
      rw [hx] at hpk
      rw [← hpk]
      rw [show (some x).getD ("", "") = x from rfl]
      rw [toStrKey_keyStr? k x hx]
      exact hk
    · intro ha
      obtain ⟨x, hx⟩ := Option.isSome_iff_exists.mp (hs a ha)
      refine ⟨x, ?_, toStrKey_keyStr? a x hx⟩
      rw [hmemL, strPairsOf, Finset.mem_image]
      exact ⟨a, ha, by rw [hx]; rfl⟩
  refine ⟨(insortKeys (strPairsOf s).val).map toStrKey, ?_, ?_, ?_, ?_⟩
  · rw [pySortedKeys]
    exact if_pos hs
  · ext a
    rw [List.mem_toFinset]
    exact hmem a
  · exact (insortKeys_sorted (strPairsOf s).val).map toStrKey
      (fun a b h => ⟨a, b, keyStr?_toStrKey a, keyStr?_toStrKey b, h⟩)
  · exact hnd.map toStrKey_injective

/-- C8: the comparator has no error conditions on key sets of string
pairs (the type the extractors are annotated to produce) — including two
empty sets — and each of the three detail listings it returns is the
deduplicated, lexicographically sorted listing of the corresponding set
(`only_trivy`, `only_grype`, `common`). -/
theorem compare_results_total_sorted (image : String) (t g : Finset JKey)
    (ts gs : Multiset String) (ht : StrKeys t) (hg : StrKeys g) :
    ∃ rec, compare_results image t g ts gs = .ok rec ∧
      rec.only_trivy.toFinset = onlyTrivySet t g ∧
      rec.only_grype.toFinset = onlyGrypeSet t g ∧
      rec.common.toFinset = bothSet t g ∧
      List.Sorted jkeyLE rec.only_trivy ∧
      List.Sorted jkeyLE rec.only_grype ∧
      List.Sorted jkeyLE rec.common ∧
      rec.only_trivy.Nodup ∧ rec.only_grype.Nodup ∧ rec.common.Nodup := by
  obtain ⟨l1, e1, f1, s1, n1⟩ := pySortedKeys_ok (onlyTrivySet t g)
    (strKeys_subset (Finset.sdiff_subset) ht)
  obtain ⟨l2, e2, f2, s2, n2⟩ := pySortedKeys_ok (onlyGrypeSet t g)
    (strKeys_subset (Finset.sdiff_subset) hg)
  obtain ⟨l3, e3, f3, s3, n3⟩ := pySortedKeys_ok (bothSet t g)
    (strKeys_subset (Finset.inter_subset_left) ht)
  refine ⟨{ image := image, trivy_total := t.card, trivy_severity := ts,
            grype_total := g.card, grype_severity := gs,
            common_count := (bothSet t g).card,
            only_trivy_count := (onlyTrivySet t g).card,
            only_grype_count := (onlyGrypeSet t g).card,
            only_trivy := l1, only_grype := l2, common := l3 },
          ?_, f1, f2, f3, s1, s2, s3, n1, n2, n3⟩
  simp only [compare_results, e1, e2, e3, exbind_ok]

/-- Witness for C8 at two empty key sets: the comparison succeeds and all
three detail listings are empty. -/
theorem compare_results_total_sorted_witness :
    ∃ rec, compare_results "img" ∅ ∅ 0 0 = .ok rec ∧
      rec.only_trivy.toFinset = onlyTrivySet ∅ ∅ ∧
      rec.only_grype.toFinset = onlyGrypeSet ∅ ∅ ∧
      rec.common.toFinset = bothSet ∅ ∅ ∧
      List.Sorted jkeyLE rec.only_trivy ∧
      List.Sorted jkeyLE rec.only_grype ∧
      List.Sorted jkeyLE rec.common ∧
      rec.only_trivy.Nodup ∧ rec.only_grype.Nodup ∧ rec.common.Nodup :=
  compare_results_total_sorted "img" ∅ ∅ 0 0 (by decide) (by decide)

theorem compare_results_ok_image (image : String) (t g : Finset JKey)
    (ts gs : Multiset String) (rec : ImageComparison)
    (h : compare_results image t g ts gs = .ok rec) : rec.image = image := by
  rw [compare_results] at h
  rcases e1 : pySortedKeys (onlyTrivySet t g) with err | l1
  · rw [e1] at h
    exact Except.noConfusion h
  · rw [e1] at h
    rcases e2 : pySortedKeys (onlyGrypeSet t g) with err | l2
    · simp only [exbind_ok, e2] at h
      exact Except.noConfusion h
    · simp only [exbind_ok, e2] at h
      rcases e3 : pySortedKeys (bothSet t g) with err | l3
      · simp only [exbind_ok, e3] at h
        exact Except.noConfusion h
      · simp only [exbind_ok, e3] at h
        rw [← Except.ok.inj h]

theorem processImage_ok_image (parse : String → Option Json)
    (tp gp : String → ProcResult) (image : String) (rec : ImageComparison)
    (h : processImage parse tp gp image = .ok rec) : rec.image = image := by
  rw [processImage] at h
  rcases e1 : scan_with_trivy parse (tp image) with err | td
  · rw [e1] at h
    exact Except.noConfusion h
  · rw [e1] at h
    rcases e2 : scan_with_grype parse (gp image) with err | gd
    · simp only [exbind_ok, e2] at h
      exact Except.noConfusion h
    · simp only [exbind_ok, e2] at h
      rcases e3 : extract_trivy_vulns td with err | tr
      · simp only [exbind_ok, e3] at h
        exact Except.noConfusion h
      · simp only [exbind_ok, e3] at h
        rcases e4 : extract_grype_vulns gd with err | gr
        · simp only [exbind_ok, e4] at h
          exact Except.noConfusion h
        · simp only [exbind_ok, e4] at h
          exact compare_results_ok_image image tr.finding_keys gr.finding_keys
            tr.severity gr.severity rec h

/-- C10: when `scan_all` completes, it has appended exactly one comparison
record per input image, in input order — the record list's images are the
input image list — and the generated report's `images_scanned` equals the
length of its `per_image` list. Images whose scans degrade to empty
results (empty scanner output) still contribute their record. -/
theorem scan_all_one_record_per_image (parse : String → Option Json)
    (tp gp : String → ProcResult) :
    ∀ images results, scan_all parse tp gp images = .ok results →
      results.map (fun r => r.image) = images ∧
      (generate_report images results).summary.images_scanned =
        (generate_report images results).per_image.length := by
  intro images
  induction images with
  | nil =>
    intro results h
    rw [scan_all] at h
    rw [← Except.ok.inj h]
    exact ⟨rfl, rfl⟩
  | cons im rest ih =>
    intro results h
    rw [scan_all] at h
    rcases e1 : processImage parse tp gp im with err | rec
    · rw [e1] at h
      exact Except.noConfusion h
    · rw [e1] at h
      rcases e2 : scan_all parse tp gp rest with err | more
      · simp only [exbind_ok, e2] at h
        exact Except.noConfusion h
      · simp only [exbind_ok, e2] at h
        rw [← Except.ok.inj h]
        obtain ⟨hmap, _⟩ := ih more e2
        have hlen : more.length = rest.length := by
          rw [← hmap, List.length_map]
        constructor
        · rw [List.map_cons, hmap, processImage_ok_image parse tp gp im rec e1]
        · show (im :: rest).length = (rec :: more).length
          rw [List.length_cons, List.length_cons, hlen]

/-- Witness for C10: two images whose scanners both produce empty output
(simulated process failure) still yield one record each, in order. -/
theorem scan_all_one_record_per_image_witness :
    ([{ image := "a", trivy_total := 0, trivy_severity := 0,
        grype_total := 0, grype_severity := 0, common_count := 0,
        only_trivy_count := 0, only_grype_count := 0,
        only_trivy := [], only_grype := [], common := [] },
      { image := "b", trivy_total := 0, trivy_severity := 0,
        grype_total := 0, grype_severity := 0, common_count := 0,
        only_trivy_count := 0, only_grype_count := 0,
        only_trivy := [], only_grype := [], common := [] }] :
      List ImageComparison).map (fun r => r.image) = ["a", "b"] ∧
    (generate_report ["a", "b"]
      [{ image := "a", trivy_total := 0, trivy_severity := 0,
         grype_total := 0, grype_severity := 0, common_count := 0,
         only_trivy_count := 0, only_grype_count := 0,
         only_trivy := [], only_grype := [], common := [] },
       { image := "b", trivy_total := 0, trivy_severity := 0,
         grype_total := 0, grype_severity := 0, common_count := 0,
         only_trivy_count := 0, only_grype_count := 0,
         only_trivy := [], only_grype := [], common := [] }]).summary.images_scanned =
    (generate_report ["a", "b"]
      [{ image := "a", trivy_total := 0, trivy_severity := 0,
         grype_total := 0, grype_severity := 0, common_count := 0,
         only_trivy_count := 0, only_grype_count := 0,
         only_trivy := [], only_grype := [], common := [] },
       { image := "b", trivy_total := 0, trivy_severity := 0,
         grype_total := 0, grype_severity := 0, common_count := 0,
         only_trivy_count := 0, only_grype_count := 0,
         only_trivy := [], only_grype := [], common := [] }]).per_image.length :=
  scan_all_one_record_per_image (fun _ => none)
    (fun _ => .completed "" 0) (fun _ => .completed "" 0) ["a", "b"] _ (by decide)

